import Mathlib

/-!
# Verification of the web-ui configuration registry and persistence layer

Shallow embedding of `src/webui/webui_manager.py` (class `WebuiManager`:
`add_components`, `get_components`, `get_component_by_id`,
`get_id_by_component`, `save_config`, `load_config`, `set_settings_dir`)
and of `src/webui/components/load_save_config_tab.py`
(`save_config_wrapper`).

Python dictionaries are modelled as association lists with Python's
update semantics (overwriting a key keeps its position; a new key is
appended).  Filesystem and clock effects are passed in explicitly: an
`FS` oracle decides whether `os.makedirs`, `open`/`json.dump` and
`open`/`json.load` succeed and with which error message, and a
`Datetime` value stands for `datetime.now()`.
-/

namespace WebUI

/-- JSON-serializable values held by widgets and written to config files.
Numbers are modelled as integers (the claims never depend on float
arithmetic). -/
inductive Json where
  | null : Json
  | bool (b : Bool) : Json
  | num (n : Int) : Json
  | str (s : String) : Json
  | arr (xs : List Json) : Json
  | obj (fields : List (String × Json)) : Json

/-- The gradio widget kinds that `save_config` distinguishes with
`isinstance` checks: `gr.Button`, `gr.File`, and everything else. -/
inductive CompKind where
  | button : CompKind
  | file : CompKind
  | other : CompKind
deriving DecidableEq, Repr

/-- A gradio component handle.  `handle` distinguishes widget instances
(Python object identity).  `interactive` models
`getattr(comp, "interactive", True)`: `none` stands for a `None`
attribute (or a missing one), for which `str(..).lower()` is not
`"false"`; only `some false` makes the widget non-interactive in the
sense of `save_config`'s check
`str(getattr(comp, "interactive", True)).lower() != "false"`. -/
structure Component where
  handle : Nat
  kind : CompKind
  interactive : Option Bool
deriving DecidableEq, Repr

/-- Lookup in an association list, i.e. Python `d[k]` returning `none`
where Python raises `KeyError`. -/
def alookup {K V : Type} [DecidableEq K] : List (K × V) → K → Option V
  | [], _ => none
  | (k', v) :: rest, k => if k' = k then some v else alookup rest k

/-- Python dict update `d[k] = v`: overwriting a key keeps its position,
a new key is appended at the end. -/
def dictInsert {K V : Type} [DecidableEq K] : List (K × V) → K → V → List (K × V)
  | [], k, v => [(k, v)]
  | (k', v') :: rest, k, v =>
    if k' = k then (k, v) :: rest else (k', v') :: dictInsert rest k v

/-- The state of `WebuiManager` that the claims are about: the two
registry dictionaries and the settings directory string.  (The agent
and browser fields of the Python class are irrelevant to every claim
and carry no logic.) -/
structure WebuiManager where
  id_to_component : List (String × Component)
  component_to_id : List (Component × String)
  settings_save_dir : String

/-- `WebuiManager.__init__`: both registry dictionaries start empty;
`settings_save_dir` is the constructor argument, the
`WEBUI_SETTINGS_DIR` environment variable, or `<cwd>/webui_settings`,
whichever is first truthy (Python `or` treats `None` and `""` as
falsy). -/
def initManager (settingsArg : Option String) (envVar : Option String)
    (cwd : String) : WebuiManager :=
  { id_to_component := []
    component_to_id := []
    settings_save_dir :=
      match settingsArg with
      | some s => if s.isEmpty then
          (match envVar with
           | some e => if e.isEmpty then cwd ++ "/webui_settings" else e
           | none => cwd ++ "/webui_settings")
        else s
      | none =>
          match envVar with
          | some e => if e.isEmpty then cwd ++ "/webui_settings" else e
          | none => cwd ++ "/webui_settings" }

/-- `WebuiManager.add_components`: for every `(comp_name, component)`
entry, insert `tab_name.comp_name → component` into `id_to_component`
and `component → tab_name.comp_name` into `component_to_id`. -/
def addComponents (m : WebuiManager) (tabName : String)
    (componentsDict : List (String × Component)) : WebuiManager :=
  componentsDict.foldl
    (fun m' p =>
      { m' with
        id_to_component :=
          dictInsert m'.id_to_component (tabName ++ "." ++ p.1) p.2
        component_to_id :=
          dictInsert m'.component_to_id p.2 (tabName ++ "." ++ p.1) })
    m

/-- `WebuiManager.get_components`: `list(self.id_to_component.values())`
in insertion order. -/
def getComponents (m : WebuiManager) : List Component :=
  m.id_to_component.map Prod.snd

/-- `WebuiManager.get_component_by_id`: `self.id_to_component[comp_id]`
(`none` where Python raises `KeyError`). -/
def getComponentById (m : WebuiManager) (compId : String) : Option Component :=
  alookup m.id_to_component compId

/-- `WebuiManager.get_id_by_component`: `self.component_to_id[comp]`
(`none` where Python raises `KeyError`). -/
def getIdByComponent (m : WebuiManager) (comp : Component) : Option String :=
  alookup m.component_to_id comp

/-- Filesystem oracle for `save_config`, `load_config` and
`set_settings_dir`: decides whether `os.makedirs` and
`open`/`json.dump` succeed on a given path (and with which exception
message on failure), and what `open`+`json.load` of a path yields (a
parsed JSON value, or the exception message of an I/O or parse
failure). -/
structure FS where
  makedirsOk : String → Bool
  makedirsErr : String → String
  writeOk : String → Bool
  writeErr : String → String
  readResult : String → Except String Json

/-- `datetime.now()`. -/
structure Datetime where
  year : Nat
  month : Nat
  day : Nat
  hour : Nat
  minute : Nat
  second : Nat
deriving DecidableEq, Repr

def pad2 (n : Nat) : String :=
  if n < 10 then "0" ++ toString n else toString n

def pad4 (n : Nat) : String :=
  if n < 10 then "000" ++ toString n
  else if n < 100 then "00" ++ toString n
  else if n < 1000 then "0" ++ toString n
  else toString n

/-- `datetime.now().strftime("%Y%m%d-%H%M%S")`. -/
def Datetime.stamp (d : Datetime) : String :=
  pad4 d.year ++ pad2 d.month ++ pad2 d.day ++ "-" ++
    pad2 d.hour ++ pad2 d.minute ++ pad2 d.second

/-- `datetime.now().strftime("%Y%m%d_%H%M%S")` (used by
`save_config_wrapper`). -/
def Datetime.stampU (d : Datetime) : String :=
  pad4 d.year ++ pad2 d.month ++ pad2 d.day ++ "_" ++
    pad2 d.hour ++ pad2 d.minute ++ pad2 d.second

/-- `str(datetime.now())`: `"YYYY-MM-DD HH:MM:SS"`. -/
def Datetime.pyStr (d : Datetime) : String :=
  pad4 d.year ++ "-" ++ pad2 d.month ++ "-" ++ pad2 d.day ++ " " ++
    pad2 d.hour ++ ":" ++ pad2 d.minute ++ ":" ++ pad2 d.second

/-- The filter `save_config` applies to a component before recording its
value: `not isinstance(comp, gr.Button) and not isinstance(comp,
gr.File) and str(getattr(comp, "interactive", True)).lower() !=
"false"`. -/
def keepComp (c : Component) : Bool :=
  c.kind ≠ CompKind.button ∧ c.kind ≠ CompKind.file ∧
    c.interactive ≠ some false

/-- The component-collection loop of `save_config`: enumerate the
registered components; for index `i < len(args)`, if the component
passes `keepComp`, look its id up in `component_to_id` (the inner
`try`/`except` skips the component when that raises) and record
`components[comp_id] = args[i]`. -/
def collectGo (c2i : List (Component × String)) (comps : List Component)
    (args : List Json) (i : Nat) (acc : List (String × Json)) :
    List (String × Json) :=
  match comps with
  | [] => acc
  | comp :: rest =>
    let acc' :=
      match args.get? i, keepComp comp with
      | some v, true =>
        match alookup c2i comp with
        | some compId => dictInsert acc compId v
        | none => acc
      | _, _ => acc
    collectGo c2i rest args (i + 1) acc'

/-- Result of `save_config`: the returned status string, and the file it
wrote (path and JSON object), if any. -/
structure SaveResult where
  status : String
  written : Option (String × List (String × Json))

/-- The destination path `os.path.join(self.settings_save_dir,
f"{config_name}.json")` with `config_name =
datetime.now().strftime("%Y%m%d-%H%M%S")`. -/
def savePath (m : WebuiManager) (now : Datetime) : String :=
  m.settings_save_dir ++ "/" ++ now.stamp ++ ".json"

/-- `WebuiManager.save_config(*args)`: ensure the settings directory
exists, collect `{comp_id: args[i]}` over the registered components,
and write the dictionary as JSON to `<settings_save_dir>/<timestamp>.json`.
The outer `try`/`except` converts any exception (modelled: `os.makedirs`
or the file write failing) into an `"Error saving settings: ..."`
status string. -/
def saveConfig (m : WebuiManager) (args : List Json) (fs : FS)
    (now : Datetime) : SaveResult :=
  if fs.makedirsOk m.settings_save_dir then
    let contents := collectGo m.component_to_id (getComponents m) args 0 []
    let path := savePath m now
    if fs.writeOk path then
      { status := "Settings saved to " ++ path
        written := some (path, contents) }
    else
      { status := "Error saving settings: " ++ fs.writeErr path
        written := none }
  else
    { status := "Error saving settings: " ++ fs.makedirsErr m.settings_save_dir
      written := none }

/-- The `load_file` argument of `load_config`: a gradio file object
(with a `.name` attribute) or a plain value whose `str(..)` is used as
the path. -/
inductive LoadFile where
  | fileObj (name : String) : LoadFile
  | strVal (s : String) : LoadFile
deriving DecidableEq, Repr

/-- Python truthiness of the `load_file` argument (`if not load_file`):
`None` and the empty string are falsy; a file object is truthy. -/
def loadFileTruthy : Option LoadFile → Bool
  | none => false
  | some (LoadFile.fileObj _) => true
  | some (LoadFile.strVal s) => !s.isEmpty

/-- `load_file.name if hasattr(load_file, 'name') else str(load_file)`. -/
def LoadFile.path : LoadFile → String
  | LoadFile.fileObj n => n
  | LoadFile.strVal s => s

/-- `WebuiManager.load_config(load_file)`: the generator's yields, each a
singleton dict keyed by `"load_save_config.config_status"`.  If
`load_file` is falsy, yield `"No file selected"` and return without
touching the filesystem.  Otherwise open and parse the file; on success
yield a `"Settings loaded from ..."` status — the parsed settings are
discarded (the component-update step is an unimplemented `TODO` in the
source).  The `try`/`except` converts any read or parse exception into
an `"Error loading file: ..."` status yield. -/
def loadConfig (loadFile : Option LoadFile) (fs : FS) :
    List (String × String) :=
  match loadFile with
  | none => [("load_save_config.config_status", "No file selected")]
  | some f =>
    if !loadFileTruthy (some f) then
      [("load_save_config.config_status", "No file selected")]
    else
      let filePath := f.path
      match fs.readResult filePath with
      | Except.ok _ =>
        [("load_save_config.config_status",
          "Settings loaded from " ++ filePath)]
      | Except.error e =>
        [("load_save_config.config_status", "Error loading file: " ++ e)]

/-- `WebuiManager.set_settings_dir(new_dir)`: `os.makedirs(new_dir,
exist_ok=True)` then assign `self.settings_save_dir = new_dir`; the
`try`/`except` leaves the directory unchanged and returns an error
status when `makedirs` raises. -/
def setSettingsDir (m : WebuiManager) (newDir : String) (fs : FS) :
    WebuiManager × String :=
  if fs.makedirsOk newDir then
    ({ m with settings_save_dir := newDir },
      "Successfully set settings directory to: " ++ newDir)
  else
    (m, "Error setting directory: " ++ fs.makedirsErr newDir)

/-- Environment probed by `save_config_wrapper` in
`load_save_config_tab.py`: whether `/.dockerenv` exists, the
`DOCKER_CONTAINER` and `WEBUI_SETTINGS_DIR` environment variables, and
the working directory. -/
structure Env where
  dockerenvExists : Bool
  dockerContainer : Option String
  webuiSettingsDir : Option String
  cwd : String

/-- Python truthiness of `os.environ.get(..)`: `None` and `""` are
falsy. -/
def envTruthy : Option String → Bool
  | none => false
  | some s => !s.isEmpty

/-- `in_docker = os.path.exists('/.dockerenv') or
os.environ.get('DOCKER_CONTAINER') or
os.environ.get('WEBUI_SETTINGS_DIR')`. -/
def inDocker (env : Env) : Bool :=
  env.dockerenvExists || envTruthy env.dockerContainer ||
    envTruthy env.webuiSettingsDir

/-- The directory `save_config_wrapper` writes to:
`os.environ.get('WEBUI_SETTINGS_DIR', '/app/webui_settings')` when in
Docker (the default applies only when the variable is absent), else
`os.path.join(os.getcwd(), 'webui_settings')`. -/
def wrapperSaveDir (env : Env) : String :=
  if inDocker env then
    match env.webuiSettingsDir with
    | some s => s
    | none => "/app/webui_settings"
  else
    env.cwd ++ "/webui_settings"

/-- The fixed `config_data` dictionary `save_config_wrapper` writes. -/
def wrapperConfigData (env : Env) (now : Datetime) : List (String × String) :=
  [("timestamp", now.pyStr),
   ("app_version", "1.0.0"),
   ("saved_by", "save_config_wrapper"),
   ("environment", if inDocker env then "docker" else "host")]

/-- Outcome of the `open`/`json.dump` attempt inside
`save_config_wrapper`, whose inner handlers distinguish `IOError` from
other exceptions. -/
inductive WriteOutcome where
  | ok : WriteOutcome
  | ioError (msg : String) : WriteOutcome
  | otherError (msg : String) : WriteOutcome

/-- Filesystem oracle for `save_config_wrapper`. -/
structure WFS where
  makedirsOk : String → Bool
  makedirsErr : String → String
  writeResult : String → WriteOutcome
  existsAfter : String → Bool

/-- Result of `save_config_wrapper`: the status string it returns, and
the file it wrote (path and contents), if the `json.dump` succeeded. -/
structure WrapResult where
  status : String
  written : Option (String × List (String × String))

/-- `save_config_wrapper` from `load_save_config_tab.py`: wired to the
"Save UI Settings" button with `inputs=None`, it receives no widget
values.  It picks a directory from the environment, ensures it exists,
and writes the fixed four-key `config_data` dictionary to
`settings_<YYYYMMDD_HHMMSS>.json`; every error becomes a returned
status string. -/
def saveConfigWrapper (env : Env) (wfs : WFS) (now : Datetime) : WrapResult :=
  let saveDir := wrapperSaveDir env
  if wfs.makedirsOk saveDir then
    let configName := "settings_" ++ now.stampU ++ ".json"
    let path := saveDir ++ "/" ++ configName
    match wfs.writeResult path with
    | WriteOutcome.ok =>
      if wfs.existsAfter path then
        { status := "Settings saved to " ++ path
          written := some (path, wrapperConfigData env now) }
      else
        { status := "Error: File could not be saved (not found after save)"
          written := some (path, wrapperConfigData env now) }
    | WriteOutcome.ioError msg =>
      { status := "Error saving settings (IO): " ++ msg, written := none }
    | WriteOutcome.otherError msg =>
      { status := "Error saving settings (write): " ++ msg, written := none }
  else
    { status := "Error saving settings: " ++ wfs.makedirsErr (wrapperSaveDir env)
      written := none }

/-- The lockstep (mutual-inverse) property of the two registry
dictionaries that the spec asserts: every identifier maps to a widget
that maps back to that identifier, and vice versa. -/
def lockstep (m : WebuiManager) : Prop :=
  (∀ compId comp, alookup m.id_to_component compId = some comp →
      alookup m.component_to_id comp = some compId) ∧
  (∀ comp compId, alookup m.component_to_id comp = some compId →
      alookup m.id_to_component compId = some comp)

/-! ## Concrete objects used by the closed theorems -/

/-- The value-bearing widget of the spec's worked example
(`main.temperature`). -/
def widgetA : Component := { handle := 0, kind := CompKind.other, interactive := some true }

/-- The button of the spec's worked example (`main.run_button`). -/
def buttonB : Component := { handle := 1, kind := CompKind.button, interactive := none }

/-- A registry holding the spec's worked example: a value widget and a
button registered on tab `main`, with settings directory `settings`. -/
def demoManager : WebuiManager :=
  addComponents (initManager (some "settings") none "/home") "main"
    [("temperature", widgetA), ("run_button", buttonB)]

/-- A filesystem oracle on which every directory creation and write
succeeds, and reading any path parses to the JSON object
`{"main.temperature": 7, "bogus.key": 1}`. -/
def fsKnownAndUnknown : FS :=
  { makedirsOk := fun _ => true
    makedirsErr := fun _ => ""
    writeOk := fun _ => true
    writeErr := fun _ => ""
    readResult := fun _ =>
      Except.ok (Json.obj
        [("main.temperature", Json.num 7), ("bogus.key", Json.num 1)]) }

/-- A filesystem oracle on which every operation succeeds and reading
any path parses to `{"main.temperature": 7}` — the exact object that
`saveConfig demoManager [7, null]` writes. -/
def fsRoundTrip : FS :=
  { makedirsOk := fun _ => true
    makedirsErr := fun _ => ""
    writeOk := fun _ => true
    writeErr := fun _ => ""
    readResult := fun _ =>
      Except.ok (Json.obj [("main.temperature", Json.num 7)]) }

/-! ## Claim theorems: the straightforward operations -/

/-- Claim C7: calling `load_config` with an absent (or empty-string,
hence falsy) source file argument yields exactly one status entry
stating that no file was selected, zero widget updates, and performs no
file I/O — the result does not depend on the filesystem oracle at
all. -/
theorem load_config_no_file (fs : FS) :
    loadConfig none fs =
        [("load_save_config.config_status", "No file selected")] ∧
      loadConfig (some (LoadFile.strVal "")) fs =
        [("load_save_config.config_status", "No file selected")] ∧
      (loadConfig none fs).length = 1 := by
  refine ⟨rfl, rfl, rfl⟩

/-- Claim C4: `save_config`, `load_config` and `set_settings_dir` never
let an exception escape: on every input and every filesystem outcome,
each returns (or yields) a status string — either its success message
or an error message built from the caught exception. -/
theorem ops_never_raise :
    (∀ (m : WebuiManager) (args : List Json) (fs : FS) (now : Datetime),
        (∃ p, (saveConfig m args fs now).status = "Settings saved to " ++ p) ∨
        (∃ e, (saveConfig m args fs now).status =
          "Error saving settings: " ++ e)) ∧
    (∀ (lf : Option LoadFile) (fs : FS), ∃ s,
        loadConfig lf fs = [("load_save_config.config_status", s)] ∧
          (s = "No file selected" ∨
            (∃ p, s = "Settings loaded from " ++ p) ∨
            (∃ e, s = "Error loading file: " ++ e))) ∧
    (∀ (m : WebuiManager) (d : String) (fs : FS),
        (setSettingsDir m d fs).2 =
          "Successfully set settings directory to: " ++ d ∨
        (∃ e, (setSettingsDir m d fs).2 = "Error setting directory: " ++ e)) := by
  refine ⟨?_, ?_, ?_⟩
  · intro m args fs now
    unfold saveConfig
    by_cases hmk : fs.makedirsOk m.settings_save_dir
    · by_cases hw : fs.writeOk (savePath m now)
      · left; exact ⟨savePath m now, by simp [hmk, hw]⟩
      · right; exact ⟨fs.writeErr (savePath m now), by simp [hmk, hw]⟩
    · right; exact ⟨fs.makedirsErr m.settings_save_dir, by simp [hmk]⟩
  · intro lf fs
    match lf with
    | none => exact ⟨"No file selected", rfl, Or.inl rfl⟩
    | some f =>
      unfold loadConfig
      by_cases hf : loadFileTruthy (some f)
      · cases hr : fs.readResult f.path with
        | ok v =>
          exact ⟨"Settings loaded from " ++ f.path,
            by simp [hf, hr], Or.inr (Or.inl ⟨f.path, rfl⟩)⟩
        | error e =>
          exact ⟨"Error loading file: " ++ e,
            by simp [hf, hr], Or.inr (Or.inr ⟨e, rfl⟩)⟩
      · exact ⟨"No file selected", by simp [hf], Or.inl rfl⟩
  · intro m d fs
    unfold setSettingsDir
    by_cases hmk : fs.makedirsOk d
    · left; simp [hmk]
    · right; exact ⟨fs.makedirsErr d, by simp [hmk]⟩

/-- Claim C8: `set_settings_dir` is idempotent — calling it twice with
the same path (on a filesystem where creating that directory succeeds;
`os.makedirs(..., exist_ok=True)` is itself repeat-safe) leaves the
settings directory as after the first call, and both calls report
success. -/
theorem set_settings_dir_idempotent (m : WebuiManager) (d : String)
    (fs : FS) (hmk : fs.makedirsOk d = true) :
    (setSettingsDir (setSettingsDir m d fs).1 d fs).1.settings_save_dir =
        (setSettingsDir m d fs).1.settings_save_dir ∧
      (setSettingsDir m d fs).2 =
        "Successfully set settings directory to: " ++ d ∧
      (setSettingsDir (setSettingsDir m d fs).1 d fs).2 =
        "Successfully set settings directory to: " ++ d := by
  simp [setSettingsDir, hmk]

/-- Witness for C8 at a concrete manager, path and filesystem. -/
theorem set_settings_dir_idempotent_witness :
    (setSettingsDir (setSettingsDir demoManager "cfg" fsRoundTrip).1 "cfg"
          fsRoundTrip).1.settings_save_dir =
        (setSettingsDir demoManager "cfg" fsRoundTrip).1.settings_save_dir ∧
      (setSettingsDir demoManager "cfg" fsRoundTrip).2 =
        "Successfully set settings directory to: " ++ "cfg" ∧
      (setSettingsDir (setSettingsDir demoManager "cfg" fsRoundTrip).1 "cfg"
          fsRoundTrip).2 =
        "Successfully set settings directory to: " ++ "cfg" :=
  set_settings_dir_idempotent demoManager "cfg" fsRoundTrip rfl

/-- Claim C5: `save_config` accepts no destination-path argument, so the
"supplied path" branch never arises; every call that reaches the write
targets `<settings_save_dir>/<timestamp>.json`, the timestamp being
`strftime("%Y%m%d-%H%M%S")`, i.e. zero-padded
`YYYYMMDD-HHMMSS`. -/
theorem save_config_destination (m : WebuiManager) (args : List Json)
    (fs : FS) (now : Datetime)
    (hmk : fs.makedirsOk m.settings_save_dir = true)
    (hw : fs.writeOk (savePath m now) = true) :
    ∃ contents, (saveConfig m args fs now).written =
      some (m.settings_save_dir ++ "/" ++
        (pad4 now.year ++ pad2 now.month ++ pad2 now.day ++ "-" ++
          pad2 now.hour ++ pad2 now.minute ++ pad2 now.second) ++ ".json",
        contents) := by
  refine ⟨collectGo m.component_to_id (getComponents m) args 0 [], ?_⟩
  have hw2 := hw
  simp only [savePath, Datetime.stamp] at hw2
  simp [saveConfig, hmk, hw2, savePath, Datetime.stamp]

/-- Witness for C5 at a concrete call. -/
theorem save_config_destination_witness :
    ∃ contents,
      (saveConfig demoManager [Json.num 7, Json.null] fsRoundTrip
          { year := 2025, month := 1, day := 2,
            hour := 3, minute := 4, second := 5 }).written =
        some ("settings" ++ "/" ++
          (pad4 2025 ++ pad2 1 ++ pad2 2 ++ "-" ++
            pad2 3 ++ pad2 4 ++ pad2 5) ++ ".json", contents) :=
  save_config_destination demoManager [Json.num 7, Json.null] fsRoundTrip
    { year := 2025, month := 1, day := 2, hour := 3, minute := 4, second := 5 }
    rfl rfl

/-! ## Claim theorems: the unimplemented update step of `load_config` -/

/-- Claim C2 (failing input): the registry registers the value widget
`main.temperature`, and the loaded file parses successfully to
`{"main.temperature": 7, "bogus.key": 1}` — yet `load_config` yields
only the status entry: it produces no update instructing any registered
widget to adopt its value (the component-update step is an
unimplemented `TODO` in the source, although the docstring promises
"Yields: dict: Updated component values"). -/
theorem load_config_produces_no_updates :
    alookup demoManager.id_to_component "main.temperature" = some widgetA ∧
      loadConfig (some (LoadFile.fileObj "settings/cfg.json"))
          fsKnownAndUnknown =
        [("load_save_config.config_status",
          "Settings loaded from settings/cfg.json")] ∧
      ∀ e ∈ loadConfig (some (LoadFile.fileObj "settings/cfg.json"))
          fsKnownAndUnknown,
        e.1 = "load_save_config.config_status" := by
  refine ⟨rfl, rfl, ?_⟩
  intro e he
  have h : loadConfig (some (LoadFile.fileObj "settings/cfg.json"))
      fsKnownAndUnknown =
      [("load_save_config.config_status",
        "Settings loaded from settings/cfg.json")] := rfl
  rw [h] at he
  simp only [List.mem_singleton] at he
  rw [he]

/-- Claim C3 (failing input): saving the worked example (`widgetA` value
`7`, button excluded) writes `{"main.temperature": 7}` to
`settings/20250102-030405.json`, but loading that very file back yields
only the status entry — in particular no update keyed by
`main.temperature`, so the loaded values do not equal the pre-save
values for the non-trigger, non-file, interactive widget. -/
theorem round_trip_fails :
    (saveConfig demoManager [Json.num 7, Json.null] fsRoundTrip
          { year := 2025, month := 1, day := 2,
            hour := 3, minute := 4, second := 5 }).written =
        some ("settings/20250102-030405.json",
          [("main.temperature", Json.num 7)]) ∧
      loadConfig (some (LoadFile.fileObj "settings/20250102-030405.json"))
          fsRoundTrip =
        [("load_save_config.config_status",
          "Settings loaded from settings/20250102-030405.json")] ∧
      alookup
          (loadConfig
            (some (LoadFile.fileObj "settings/20250102-030405.json"))
            fsRoundTrip)
          "main.temperature" = none := by
  exact ⟨rfl, rfl, rfl⟩

/-! ## Claim theorems: the wrapper actually wired to the save button -/

/-- Claim C9: `save_config_wrapper` — the handler the "Save UI
Settings" button calls with `inputs=None`, so it receives no widget
values — writes, on every successful click, the fixed four-key metadata
object (`timestamp`, `app_version`, `saved_by`, `environment`) to
`settings_<YYYYMMDD_HHMMSS>.json`; and whatever the filesystem does,
any file it writes holds exactly that metadata object, which is built
from the environment and clock only, never from a registered widget's
value. -/
theorem save_config_wrapper_fixed_metadata (env : Env) (wfs : WFS)
    (now : Datetime)
    (hmk : wfs.makedirsOk (wrapperSaveDir env) = true)
    (hw : wfs.writeResult
        (wrapperSaveDir env ++ "/" ++ ("settings_" ++ now.stampU ++ ".json")) =
      WriteOutcome.ok)
    (hex : wfs.existsAfter
        (wrapperSaveDir env ++ "/" ++ ("settings_" ++ now.stampU ++ ".json")) =
      true) :
    (saveConfigWrapper env wfs now).status =
        "Settings saved to " ++
          (wrapperSaveDir env ++ "/" ++
            ("settings_" ++ now.stampU ++ ".json")) ∧
      (saveConfigWrapper env wfs now).written =
        some (wrapperSaveDir env ++ "/" ++
          ("settings_" ++ now.stampU ++ ".json"), wrapperConfigData env now) ∧
      (wrapperConfigData env now).map Prod.fst =
        ["timestamp", "app_version", "saved_by", "environment"] ∧
      (∀ (e : Env) (w : WFS) (n : Datetime) (p : String)
          (c : List (String × String)),
        (saveConfigWrapper e w n).written = some (p, c) →
          c = wrapperConfigData e n) := by
  refine ⟨?_, ?_, rfl, ?_⟩
  · simp [saveConfigWrapper, hmk, hw, hex]
  · simp [saveConfigWrapper, hmk, hw, hex]
  · intro e w n p c hwr
    unfold saveConfigWrapper at hwr
    dsimp only at hwr
    split at hwr
    · split at hwr
      · split at hwr
        · simp only [Option.some.injEq, Prod.mk.injEq] at hwr
          exact hwr.2.symm
        · simp only [Option.some.injEq, Prod.mk.injEq] at hwr
          exact hwr.2.symm
      · simp at hwr
      · simp at hwr
    · simp at hwr

/-- Witness for C9: a host (non-Docker) environment with an all-ok
filesystem. -/
theorem save_config_wrapper_fixed_metadata_witness :
    (saveConfigWrapper
          { dockerenvExists := false, dockerContainer := none,
            webuiSettingsDir := none, cwd := "/home" }
          { makedirsOk := fun _ => true, makedirsErr := fun _ => "",
            writeResult := fun _ => WriteOutcome.ok,
            existsAfter := fun _ => true }
          { year := 2025, month := 1, day := 2,
            hour := 3, minute := 4, second := 5 }).status =
      "Settings saved to " ++
        (wrapperSaveDir
            { dockerenvExists := false, dockerContainer := none,
              webuiSettingsDir := none, cwd := "/home" } ++ "/" ++
          ("settings_" ++
            ({ year := 2025, month := 1, day := 2, hour := 3, minute := 4,
               second := 5 : Datetime }).stampU ++ ".json")) :=
  (save_config_wrapper_fixed_metadata
    { dockerenvExists := false, dockerContainer := none,
      webuiSettingsDir := none, cwd := "/home" }
    { makedirsOk := fun _ => true, makedirsErr := fun _ => "",
      writeResult := fun _ => WriteOutcome.ok,
      existsAfter := fun _ => true }
    { year := 2025, month := 1, day := 2,
      hour := 3, minute := 4, second := 5 }
    rfl rfl rfl).1

/-! ## Registry lockstep: helper lemmas -/

theorem alookup_eq_none {K V : Type} [DecidableEq K] {d : List (K × V)}
    {k : K} (h : k ∉ d.map Prod.fst) : alookup d k = none := by
  induction d with
  | nil => rfl
  | cons p rest ih =>
    cases p with
    | mk k' v' =>
      simp only [List.map_cons, List.mem_cons, not_or] at h
      simp only [alookup]
      rw [if_neg fun he => h.1 he.symm]
      exact ih h.2

theorem alookup_mem {K V : Type} [DecidableEq K] {d : List (K × V)}
    {k : K} {v : V} (h : alookup d k = some v) : (k, v) ∈ d := by
  induction d with
  | nil => exact absurd h (by simp [alookup])
  | cons p rest ih =>
    cases p with
    | mk k' v' =>
      simp only [alookup] at h
      by_cases he : k' = k
      · rw [if_pos he] at h
        have hv : v' = v := Option.some.inj h
        subst he
        subst hv
        exact List.mem_cons_self _ _
      · rw [if_neg he] at h
        exact List.mem_cons_of_mem _ (ih h)

theorem dictInsert_fresh {K V : Type} [DecidableEq K] {d : List (K × V)}
    {k : K} (v : V) (h : k ∉ d.map Prod.fst) :
    dictInsert d k v = d ++ [(k, v)] := by
  induction d with
  | nil => rfl
  | cons p rest ih =>
    cases p with
    | mk k' v' =>
      simp only [List.map_cons, List.mem_cons, not_or] at h
      simp only [dictInsert]
      rw [if_neg fun he => h.1 he.symm, ih h.2]
      rfl

/-- Looking a value up in the key-value-swapped copy of an association
list, when the values are distinct. -/
theorem alookup_map_swap {K V : Type} [DecidableEq K] [DecidableEq V]
    (l : List (K × V)) (k : K) (v : V)
    (hnd : (l.map Prod.snd).Nodup) (h : alookup l k = some v) :
    alookup (l.map fun q => (q.2, q.1)) v = some k := by
  induction l with
  | nil => exact absurd h (by simp [alookup])
  | cons p rest ih =>
    cases p with
    | mk k' v' =>
      simp only [List.map_cons, List.nodup_cons] at hnd
      simp only [alookup] at h
      simp only [List.map_cons, alookup]
      by_cases hk : k' = k
      · rw [if_pos hk] at h
        have hv : v' = v := Option.some.inj h
        rw [if_pos hv]
        exact congrArg some hk
      · rw [if_neg hk] at h
        have hvmem : v ∈ rest.map Prod.snd :=
          List.mem_map_of_mem Prod.snd (alookup_mem h)
        have hne : v' ≠ v := fun he => hnd.1 (by rw [he]; exact hvmem)
        rw [if_neg hne]
        exact ih hnd.2 h

/-- Converse direction of `alookup_map_swap`, when the keys are
distinct. -/
theorem alookup_map_swap_rev {K V : Type} [DecidableEq K] [DecidableEq V]
    (l : List (K × V)) (k : K) (v : V)
    (hnd : (l.map Prod.fst).Nodup)
    (h : alookup (l.map fun q => (q.2, q.1)) v = some k) :
    alookup l k = some v := by
  induction l with
  | nil => exact absurd h (by simp [alookup])
  | cons p rest ih =>
    cases p with
    | mk k' v' =>
      simp only [List.map_cons, List.nodup_cons] at hnd
      simp only [List.map_cons, alookup] at h
      simp only [alookup]
      by_cases hv : v' = v
      · rw [if_pos hv] at h
        have hk : k' = k := Option.some.inj h
        rw [if_pos hk]
        exact congrArg some hv
      · rw [if_neg hv] at h
        have hrest : alookup rest k = some v := ih hnd.2 h
        have hkmem : k ∈ rest.map Prod.fst :=
          List.mem_map_of_mem Prod.fst (alookup_mem hrest)
        have hne : k' ≠ k := fun he => hnd.1 (by rw [he]; exact hkmem)
        rw [if_neg hne]
        exact hrest

/-! ## Registry lockstep: `add_components` as pairwise insertion -/

/-- One loop iteration of `add_components`: insert a fully qualified
`(identifier, component)` pair into both registry dictionaries. -/
def insertPair (m : WebuiManager) (p : String × Component) : WebuiManager :=
  { m with
    id_to_component := dictInsert m.id_to_component p.1 p.2
    component_to_id := dictInsert m.component_to_id p.2 p.1 }

/-- Folding `insertPair` over a pair list. -/
def insertPairs (m : WebuiManager) (ps : List (String × Component)) :
    WebuiManager :=
  ps.foldl insertPair m

theorem addComponents_eq_insertPairs (m : WebuiManager) (tab : String)
    (l : List (String × Component)) :
    addComponents m tab l =
      insertPairs m (l.map fun p => (tab ++ "." ++ p.1, p.2)) := by
  unfold addComponents insertPairs
  rw [List.foldl_map]
  rfl

/-- A sequence of `add_components` calls, each a tab name with its
component dictionary, applied in order. -/
def runCalls (m : WebuiManager)
    (calls : List (String × List (String × Component))) : WebuiManager :=
  calls.foldl (fun m' c => addComponents m' c.1 c.2) m

/-- All fully qualified `(identifier, component)` pairs a call sequence
registers, in registration order. -/
def callPairs (calls : List (String × List (String × Component))) :
    List (String × Component) :=
  (calls.map fun c => c.2.map fun p => (c.1 ++ "." ++ p.1, p.2)).flatten

theorem insertPairs_append (m : WebuiManager)
    (a b : List (String × Component)) :
    insertPairs m (a ++ b) = insertPairs (insertPairs m a) b := by
  unfold insertPairs
  exact List.foldl_append _ _ _ _

theorem runCalls_eq_insertPairs (m : WebuiManager)
    (calls : List (String × List (String × Component))) :
    runCalls m calls = insertPairs m (callPairs calls) := by
  induction calls generalizing m with
  | nil => rfl
  | cons c cs ih =>
    show runCalls (addComponents m c.1 c.2) cs = _
    rw [ih, addComponents_eq_insertPairs, ← insertPairs_append]
    rfl

/-- When every inserted identifier and every inserted component is fresh,
the insert loop just appends to both dictionaries and preserves the
swapped-copy relation between them. -/
theorem insertPairs_fresh (ps : List (String × Component)) :
    ∀ m : WebuiManager,
      m.component_to_id = m.id_to_component.map (fun q => (q.2, q.1)) →
      (m.id_to_component.map Prod.fst ++ ps.map Prod.fst).Nodup →
      (m.id_to_component.map Prod.snd ++ ps.map Prod.snd).Nodup →
      (insertPairs m ps).id_to_component = m.id_to_component ++ ps ∧
        (insertPairs m ps).component_to_id =
          m.component_to_id ++ ps.map (fun q => (q.2, q.1)) := by
  induction ps with
  | nil =>
    intro m _ _ _
    exact ⟨by simp [insertPairs], by simp [insertPairs]⟩
  | cons p rest ih =>
    intro m hpre h1 h2
    have hdisj1 := (List.nodup_append.mp h1).2.2
    have hdisj2 := (List.nodup_append.mp h2).2.2
    have hk : p.1 ∉ m.id_to_component.map Prod.fst := by
      intro hm
      exact hdisj1 hm (List.mem_cons_self _ _)
    have hv : p.2 ∉ m.id_to_component.map Prod.snd := by
      intro hm
      exact hdisj2 hm (List.mem_cons_self _ _)
    have hv' : p.2 ∉ m.component_to_id.map Prod.fst := by
      rw [hpre, List.map_map]
      exact hv
    have hid : (insertPair m p).id_to_component =
        m.id_to_component ++ [p] := by
      show dictInsert m.id_to_component p.1 p.2 = _
      rw [dictInsert_fresh p.2 hk]
    have hc2i : (insertPair m p).component_to_id =
        m.component_to_id ++ [(p.2, p.1)] := by
      show dictInsert m.component_to_id p.2 p.1 = _
      rw [dictInsert_fresh p.1 hv']
    have hpre' : (insertPair m p).component_to_id =
        (insertPair m p).id_to_component.map (fun q => (q.2, q.1)) := by
      rw [hid, hc2i, List.map_append, hpre]
      rfl
    have h1' : ((insertPair m p).id_to_component.map Prod.fst ++
        rest.map Prod.fst).Nodup := by
      rw [hid, List.map_append]
      simpa [List.append_assoc] using h1
    have h2' : ((insertPair m p).id_to_component.map Prod.snd ++
        rest.map Prod.snd).Nodup := by
      rw [hid, List.map_append]
      simpa [List.append_assoc] using h2
    have hrest := ih (insertPair m p) hpre' h1' h2'
    refine ⟨?_, ?_⟩
    · show (insertPairs (insertPair m p) rest).id_to_component = _
      rw [hrest.1, hid, List.append_assoc]
      rfl
    · show (insertPairs (insertPair m p) rest).component_to_id = _
      rw [hrest.2, hc2i, List.append_assoc]
      rfl

/-! ## Claim C6: counterexample and amended statement -/

/-- First widget registered under identifier `t.a`. -/
def compC1 : Component := { handle := 10, kind := CompKind.other, interactive := none }

/-- Second widget, re-registered under the same identifier `t.a`. -/
def compC2 : Component := { handle := 11, kind := CompKind.other, interactive := none }

/-- Re-registering identifier `t.a` with a different widget:
`id_to_component["t.a"]` is overwritten to `compC2`, but the stale entry
`compC1 → "t.a"` stays in `component_to_id`. -/
def realiasedManager : WebuiManager :=
  addComponents
    (addComponents (initManager (some "d") none "/home") "t" [("a", compC1)])
    "t" [("a", compC2)]

/-- Claim C6 (counterexample): after re-registering an already-used
identifier with a different widget — a case the claim explicitly
includes — the two registry dictionaries are not mutual inverses:
`component_to_id` still maps the displaced widget `compC1` to `t.a`,
but `id_to_component` maps `t.a` to `compC2`. -/
theorem add_components_reregistration_breaks_lockstep :
    ¬ lockstep realiasedManager := by
  intro h
  have h1 : alookup realiasedManager.component_to_id compC1 = some "t.a" := rfl
  have h2 := h.2 compC1 "t.a" h1
  have h3 : alookup realiasedManager.id_to_component "t.a" = some compC2 := rfl
  rw [h3] at h2
  have h4 : compC2 = compC1 := Option.some.inj h2
  exact absurd (congrArg Component.handle h4) (by decide)

/-- Helper: a call sequence whose registered identifiers and components
are all fresh produces mutually inverse registry dictionaries. -/
theorem lockstep_runCalls_of_fresh
    (calls : List (String × List (String × Component)))
    (settingsArg envVar : Option String) (cwd : String)
    (hids : ((callPairs calls).map Prod.fst).Nodup)
    (hcomps : ((callPairs calls).map Prod.snd).Nodup) :
    lockstep (runCalls (initManager settingsArg envVar cwd) calls) := by
  have hrun := runCalls_eq_insertPairs (initManager settingsArg envVar cwd) calls
  have h := insertPairs_fresh (callPairs calls)
    (initManager settingsArg envVar cwd) rfl
    (by simpa using hids) (by simpa using hcomps)
  have e1 : (insertPairs (initManager settingsArg envVar cwd)
      (callPairs calls)).id_to_component = callPairs calls := by
    simpa using h.1
  have e2 : (insertPairs (initManager settingsArg envVar cwd)
      (callPairs calls)).component_to_id =
      (callPairs calls).map (fun q => (q.2, q.1)) := by
    simpa using h.2
  rw [hrun]
  constructor
  · intro compId comp hx
    rw [e2]
    rw [e1] at hx
    exact alookup_map_swap _ compId comp hcomps hx
  · intro comp compId hx
    rw [e1]
    rw [e2] at hx
    exact alookup_map_swap_rev _ compId comp hids hx

/-- Claim C6 (amended): after every sequence of `add_components` calls
in which no identifier is registered twice and no widget is registered
under two identifiers, the two registry dictionaries are mutual
inverses: every identifier maps to a widget that maps back to that
identifier, and vice versa.  (Re-registration, which the original claim
included, breaks the invariant: the displaced entry is never removed
from the other dictionary.) -/
theorem add_components_lockstep_of_fresh
    (calls : List (String × List (String × Component)))
    (settingsArg envVar : Option String) (cwd : String)
    (hids : ((callPairs calls).map Prod.fst).Nodup)
    (hcomps : ((callPairs calls).map Prod.snd).Nodup) :
    lockstep (runCalls (initManager settingsArg envVar cwd) calls) :=
  lockstep_runCalls_of_fresh calls settingsArg envVar cwd hids hcomps

/-- Witness for the amended C6 at a concrete two-widget call
sequence. -/
theorem add_components_lockstep_of_fresh_witness :
    lockstep (runCalls (initManager (some "d") none "/home")
      [("t", [("a", compC1), ("b", compC2)])]) :=
  add_components_lockstep_of_fresh
    [("t", [("a", compC1), ("b", compC2)])]
    (some "d") none "/home" (by decide) (by decide)

/-- The worked-example registry is well formed: its two dictionaries
are mutual inverses. -/
theorem demoManager_lockstep : lockstep demoManager :=
  lockstep_runCalls_of_fresh
    [("main", [("temperature", widgetA), ("run_button", buttonB)])]
    (some "settings") none "/home" (by decide) (by decide)

/-! ## Characterizing the component-collection loop of `save_config` -/

theorem alookup_of_mem {K V : Type} [DecidableEq K] {d : List (K × V)}
    {k : K} {v : V} (hnd : (d.map Prod.fst).Nodup) (hm : (k, v) ∈ d) :
    alookup d k = some v := by
  induction d with
  | nil => exact absurd hm (List.not_mem_nil _)
  | cons p rest ih =>
    cases p with
    | mk k' v' =>
      simp only [List.map_cons, List.nodup_cons] at hnd
      simp only [alookup]
      rcases List.mem_cons.mp hm with heq | hmem
      · have hk : k = k' := congrArg Prod.fst heq
        have hv : v = v' := congrArg Prod.snd heq
        rw [if_pos hk.symm]
        exact congrArg some hv.symm
      · have hkmem : k ∈ rest.map Prod.fst :=
          List.mem_map_of_mem Prod.fst hmem
        rw [if_neg fun he => hnd.1 (by rw [he]; exact hkmem)]
        exact ih hnd.2 hmem

/-- The list of `(identifier, value)` pairs the collection loop of
`save_config` records, read off directly from the loop (before any
dictionary bookkeeping). -/
def savedPairs (c2i : List (Component × String)) (comps : List Component)
    (args : List Json) (i : Nat) : List (String × Json) :=
  match comps with
  | [] => []
  | comp :: rest =>
    (match args.get? i, keepComp comp, alookup c2i comp with
     | some v, true, some compId => [(compId, v)]
     | _, _, _ => []) ++ savedPairs c2i rest args (i + 1)

/-- When the keys the loop produces are mutually fresh, the dictionary
the loop builds is exactly the accumulator followed by `savedPairs`. -/
theorem collectGo_eq_append (c2i : List (Component × String))
    (comps : List Component) (args : List Json) :
    ∀ (i : Nat) (acc : List (String × Json)),
      (acc.map Prod.fst ++
        (savedPairs c2i comps args i).map Prod.fst).Nodup →
      collectGo c2i comps args i acc =
        acc ++ savedPairs c2i comps args i := by
  induction comps with
  | nil => intro i acc _; simp [collectGo, savedPairs]
  | cons comp rest ih =>
    intro i acc h
    cases hg : args.get? i with
    | none =>
      simp only [collectGo, savedPairs, hg] at h ⊢
      exact ih (i + 1) acc h
    | some v =>
      cases hk : keepComp comp with
      | false =>
        simp only [collectGo, savedPairs, hg, hk] at h ⊢
        exact ih (i + 1) acc h
      | true =>
        cases hc : alookup c2i comp with
        | none =>
          simp only [collectGo, savedPairs, hg, hk, hc] at h ⊢
          exact ih (i + 1) acc h
        | some compId =>
          simp only [collectGo, savedPairs, hg, hk, hc,
            List.singleton_append, List.map_cons] at h ⊢
          have hfresh : compId ∉ acc.map Prod.fst := by
            intro hmem
            exact (List.nodup_append.mp h).2.2 hmem (List.mem_cons_self _ _)
          rw [dictInsert_fresh v hfresh]
          have h' : ((acc ++ [(compId, v)]).map Prod.fst ++
              (savedPairs c2i rest args (i + 1)).map Prod.fst).Nodup := by
            rw [List.map_append]
            simpa [List.append_assoc] using h
          rw [ih (i + 1) (acc ++ [(compId, v)]) h']
          simp [List.append_assoc]

/-- `savedPairs`, re-indexed over the registry entries themselves: for
each `(identifier, component)` entry whose position is covered by
`args` and whose component passes the filter, record
`(identifier, args[i])`. -/
def specSaved (l : List (String × Component)) (args : List Json) (i : Nat) :
    List (String × Json) :=
  match l with
  | [] => []
  | (compId, comp) :: rest =>
    (match args.get? i, keepComp comp with
     | some v, true => [(compId, v)]
     | _, _ => []) ++ specSaved rest args (i + 1)

/-- When every registry entry's component looks back up to its own
identifier, the loop's `savedPairs` over the component list agrees with
`specSaved` over the registry entries. -/
theorem savedPairs_eq_specSaved (c2i : List (Component × String))
    (l : List (String × Component)) (args : List Json) :
    ∀ i : Nat,
      (∀ compId comp, (compId, comp) ∈ l →
        alookup c2i comp = some compId) →
      savedPairs c2i (l.map Prod.snd) args i = specSaved l args i := by
  induction l with
  | nil => intro i _; rfl
  | cons p rest ih =>
    intro i hl
    cases p with
    | mk compId comp =>
      have hc : alookup c2i comp = some compId :=
        hl compId comp (List.mem_cons_self _ _)
      simp only [List.map_cons, savedPairs, specSaved]
      congr 1
      · cases args.get? i <;> cases keepComp comp <;> simp [hc]
      · exact ih (i + 1) fun a b hm => hl a b (List.mem_cons_of_mem _ hm)

/-- The identifiers `specSaved` records form a sublist of the registered
identifiers. -/
theorem specSaved_keys_sublist (l : List (String × Component))
    (args : List Json) :
    ∀ i : Nat,
      ((specSaved l args i).map Prod.fst).Sublist (l.map Prod.fst) := by
  induction l with
  | nil => intro i; simp [specSaved]
  | cons p rest ih =>
    intro i
    cases p with
    | mk compId comp =>
      simp only [specSaved, List.map_cons]
      cases hg : args.get? i with
      | none =>
        simp only [List.nil_append, List.map_nil]
        exact (ih (i + 1)).cons compId
      | some v =>
        cases hk : keepComp comp with
        | false =>
          simp only [List.nil_append, List.map_nil]
          exact (ih (i + 1)).cons compId
        | true =>
          simp only [List.singleton_append, List.map_cons]
          exact (ih (i + 1)).cons₂ compId

/-- Lookup in `specSaved`: the entry at registry index `j` appears with
value `args[i+j]` exactly when its position is covered and its component
passes the filter. -/
theorem specSaved_alookup (l : List (String × Component)) (args : List Json) :
    ∀ (i j : Nat) (compId : String) (comp : Component),
      (l.map Prod.fst).Nodup →
      l.get? j = some (compId, comp) →
      alookup (specSaved l args i) compId =
        (match args.get? (i + j), keepComp comp with
         | some v, true => some v
         | _, _ => none) := by
  induction l with
  | nil => intro i j compId comp _ hj; simp at hj
  | cons p rest ih =>
    intro i j compId comp hnd hj
    simp only [List.map_cons, List.nodup_cons] at hnd
    cases j with
    | zero =>
      rw [List.get?_cons_zero] at hj
      have hp : p = (compId, comp) := Option.some.inj hj
      subst hp
      have hnotin : compId ∉ ((specSaved rest args (i + 1)).map Prod.fst) :=
        fun hmem => hnd.1 ((specSaved_keys_sublist rest args (i + 1)).subset hmem)
      simp only [specSaved, Nat.add_zero]
      cases hg : args.get? i with
      | none => exact alookup_eq_none hnotin
      | some v =>
        cases hk : keepComp comp with
        | false => exact alookup_eq_none hnotin
        | true => simp [alookup]
    | succ j' =>
      rw [List.get?_cons_succ] at hj
      have hmem : compId ∈ rest.map Prod.fst :=
        List.mem_map_of_mem Prod.fst (List.get?_mem hj)
      have hne : p.1 ≠ compId := fun he => hnd.1 (by rw [he]; exact hmem)
      have harith : i + 1 + j' = i + (j' + 1) := by omega
      have htail := ih (i + 1) j' compId comp hnd.2 hj
      rw [harith] at htail
      cases p with
      | mk compId' comp' =>
        simp only [specSaved]
        cases hg : args.get? i with
        | none => exact htail
        | some v =>
          cases hk : keepComp comp' with
          | false => exact htail
          | true =>
            simp only [List.singleton_append, alookup]
            rw [if_neg hne]
            exact htail

/-- Under a well-formed registry, the dictionary `save_config` builds is
exactly `specSaved` over the registry entries. -/
theorem saveConfig_contents (m : WebuiManager) (args : List Json)
    (hls : lockstep m) (hnd : (m.id_to_component.map Prod.fst).Nodup) :
    collectGo m.component_to_id (getComponents m) args 0 [] =
      specSaved m.id_to_component args 0 := by
  have hc2i : ∀ compId comp, (compId, comp) ∈ m.id_to_component →
      alookup m.component_to_id comp = some compId :=
    fun compId comp hm => hls.1 compId comp (alookup_of_mem hnd hm)
  have hsp : savedPairs m.component_to_id (getComponents m) args 0 =
      specSaved m.id_to_component args 0 :=
    savedPairs_eq_specSaved m.component_to_id m.id_to_component args 0 hc2i
  have hkeys : (([] : List (String × Json)).map Prod.fst ++
      (savedPairs m.component_to_id (getComponents m) args 0).map
        Prod.fst).Nodup := by
    rw [hsp]
    simpa using (specSaved_keys_sublist m.id_to_component args 0).nodup hnd
  rw [collectGo_eq_append m.component_to_id (getComponents m) args 0 [] hkeys]
  simpa using hsp

/-! ## Claims C1 and C10: what `save_config` writes -/

/-- Claim C1: on a well-formed registry, calling `save_config` with one
positional value per registered widget writes a JSON object that
contains a registered identifier as a key — mapped to that widget's
supplied value, i.e. the argument at the widget's registration index —
exactly when the widget is neither a button nor a file picker and is
not marked non-interactive; and every key of the object is a registered
identifier. -/
theorem save_config_saves_exactly_interactive_value_widgets
    (m : WebuiManager) (args : List Json) (fs : FS) (now : Datetime)
    (hls : lockstep m) (hnd : (m.id_to_component.map Prod.fst).Nodup)
    (hlen : args.length = m.id_to_component.length)
    (hmk : fs.makedirsOk m.settings_save_dir = true)
    (hw : fs.writeOk (savePath m now) = true) :
    ∃ contents,
      (saveConfig m args fs now).written = some (savePath m now, contents) ∧
        (∀ j compId comp, m.id_to_component.get? j = some (compId, comp) →
          alookup contents compId =
            (if keepComp comp = true then args.get? j else none)) ∧
        (∀ compId, compId ∈ contents.map Prod.fst →
          compId ∈ m.id_to_component.map Prod.fst) := by
  have hcc := saveConfig_contents m args hls hnd
  refine ⟨specSaved m.id_to_component args 0, ?_, ?_, ?_⟩
  · simp only [saveConfig, hmk, if_true, hw, hcc]
  · intro j compId comp hj
    have hchar := specSaved_alookup m.id_to_component args 0 j compId comp hnd hj
    rw [Nat.zero_add] at hchar
    have hjlt : j < m.id_to_component.length := by
      by_contra hge
      push_neg at hge
      rw [List.get?_eq_none.mpr hge] at hj
      exact absurd hj (by simp)
    have hlt : j < args.length := by rw [hlen]; exact hjlt
    obtain ⟨v, hv⟩ : ∃ v, args.get? j = some v :=
      ⟨args.get ⟨j, hlt⟩, List.get?_eq_get hlt⟩
    rw [hv] at hchar
    rw [hv]
    cases hk : keepComp comp with
    | true =>
      rw [hk] at hchar
      simpa using hchar
    | false =>
      rw [hk] at hchar
      simpa using hchar
  · intro compId hmem
    exact (specSaved_keys_sublist m.id_to_component args 0).subset hmem

/-- Witness for C1: the worked-example registry with both positions
supplied; the value widget's identifier is saved with its value, the
button's is not. -/
theorem save_config_saves_exactly_interactive_value_widgets_witness :
    ∃ contents,
      (saveConfig demoManager [Json.num 7, Json.null] fsRoundTrip
          { year := 2025, month := 1, day := 2,
            hour := 3, minute := 4, second := 5 }).written =
        some (savePath demoManager
          { year := 2025, month := 1, day := 2,
            hour := 3, minute := 4, second := 5 }, contents) ∧
        (∀ j compId comp,
          demoManager.id_to_component.get? j = some (compId, comp) →
          alookup contents compId =
            (if keepComp comp = true
              then ([Json.num 7, Json.null] : List Json).get? j else none)) ∧
        (∀ compId, compId ∈ contents.map Prod.fst →
          compId ∈ demoManager.id_to_component.map Prod.fst) :=
  save_config_saves_exactly_interactive_value_widgets demoManager
    [Json.num 7, Json.null] fsRoundTrip
    { year := 2025, month := 1, day := 2, hour := 3, minute := 4, second := 5 }
    demoManager_lockstep (by decide) (by decide) rfl rfl

/-- Claim C10: a registered widget at registration index `j ≥ len(args)`
is silently omitted from the saved JSON object regardless of its kind
or interactivity, and the call still reports success. -/
theorem save_config_omits_unsupplied_positions
    (m : WebuiManager) (args : List Json) (fs : FS) (now : Datetime)
    (hls : lockstep m) (hnd : (m.id_to_component.map Prod.fst).Nodup)
    (hmk : fs.makedirsOk m.settings_save_dir = true)
    (hw : fs.writeOk (savePath m now) = true) :
    (saveConfig m args fs now).status =
        "Settings saved to " ++ savePath m now ∧
      ∃ contents,
        (saveConfig m args fs now).written = some (savePath m now, contents) ∧
          ∀ j compId comp, args.length ≤ j →
            m.id_to_component.get? j = some (compId, comp) →
            alookup contents compId = none := by
  have hcc := saveConfig_contents m args hls hnd
  refine ⟨?_, specSaved m.id_to_component args 0, ?_, ?_⟩
  · simp only [saveConfig, hmk, if_true, hw]
  · simp only [saveConfig, hmk, if_true, hw, hcc]
  · intro j compId comp hge hj
    have hchar := specSaved_alookup m.id_to_component args 0 j compId comp hnd hj
    rw [Nat.zero_add] at hchar
    rw [List.get?_eq_none.mpr hge] at hchar
    exact hchar

/-- Witness for C10: saving the worked-example registry with an empty
argument list writes an empty object and still reports success. -/
theorem save_config_omits_unsupplied_positions_witness :
    (saveConfig demoManager [] fsRoundTrip
          { year := 2025, month := 1, day := 2,
            hour := 3, minute := 4, second := 5 }).status =
        "Settings saved to " ++ savePath demoManager
          { year := 2025, month := 1, day := 2,
            hour := 3, minute := 4, second := 5 } ∧
      ∃ contents,
        (saveConfig demoManager [] fsRoundTrip
            { year := 2025, month := 1, day := 2,
              hour := 3, minute := 4, second := 5 }).written =
          some (savePath demoManager
            { year := 2025, month := 1, day := 2,
              hour := 3, minute := 4, second := 5 }, contents) ∧
          ∀ j compId comp, ([] : List Json).length ≤ j →
            demoManager.id_to_component.get? j = some (compId, comp) →
            alookup contents compId = none :=
  save_config_omits_unsupplied_positions demoManager [] fsRoundTrip
    { year := 2025, month := 1, day := 2, hour := 3, minute := 4, second := 5 }
    demoManager_lockstep (by decide) rfl rfl

end WebUI
